import Mathlib

/-!
Verification development for the port grain-unloading simulation
(`clases_sim.py`).  The definitions below are a shallow embedding of the
simulation's data pipeline, process bodies, generators and driver; all
quantities are rationals (Python floats carry exact decimal constants here)
and virtual time is in minutes, as in the source.
-/

namespace SimPuerto

/-! ## Operating constants (source lines 25-39) -/

def TIEMPO_PUERTA_SALIDA : ℚ := 8.16

def TIEMPO_PUERTA_ENTRADA : ℚ := 2

def TIEMPO_CARGAR_EN_CHUTE : ℚ := 7.28

def TIEMPO_ATRAQUE : ℚ := 462

def TIEMPO_LLEGADA_CAMIONES : ℚ := 440

def TASA_LLEGADA_FACTOR : ℚ := 1.08

def TIEMPO_A_BODEGA : ℚ := 3

def TIEMPO_DESCARGAR_EN_BODEGA : ℚ := 6

def TIEMPO_CARGAR_EN_BODEGA : ℚ := 6

def TIEMPO_ENTRADA_CAMION_DEDICADO : ℚ := 2

def TIEMPO_SALIDA_DE_BODEGA : ℚ := 2

def MAXIMO_RADA : ℕ := 8

/-- The operating constants as one record, mirroring the module-level
constants of `clases_sim.py` (the UI overrides them with `setattr`, so the
processes are modelled as functions of this record). -/
structure Constantes where
  tiempoPuertaSalida : ℚ
  tiempoPuertaEntrada : ℚ
  tiempoCargarEnChute : ℚ
  tiempoAtraque : ℚ
  tiempoLlegadaCamiones : ℚ
  tasaLlegadaFactor : ℚ
  tiempoABodega : ℚ
  tiempoDescargarEnBodega : ℚ
  tiempoCargarEnBodega : ℚ
  tiempoEntradaCamionDedicado : ℚ
  tiempoSalidaDeBodega : ℚ
  maximoRada : ℕ
deriving DecidableEq

/-- Default values of the constants (source lines 25-39). -/
def constantesDefecto : Constantes :=
  { tiempoPuertaSalida := TIEMPO_PUERTA_SALIDA
    tiempoPuertaEntrada := TIEMPO_PUERTA_ENTRADA
    tiempoCargarEnChute := TIEMPO_CARGAR_EN_CHUTE
    tiempoAtraque := TIEMPO_ATRAQUE
    tiempoLlegadaCamiones := TIEMPO_LLEGADA_CAMIONES
    tasaLlegadaFactor := TASA_LLEGADA_FACTOR
    tiempoABodega := TIEMPO_A_BODEGA
    tiempoDescargarEnBodega := TIEMPO_DESCARGAR_EN_BODEGA
    tiempoCargarEnBodega := TIEMPO_CARGAR_EN_BODEGA
    tiempoEntradaCamionDedicado := TIEMPO_ENTRADA_CAMION_DEDICADO
    tiempoSalidaDeBodega := TIEMPO_SALIDA_DE_BODEGA
    maximoRada := MAXIMO_RADA }

/-- `fijarTiempoPuertaSalida k v` is `k` with the exit-gate service time
replaced by `v` (the only way the UI changes `TIEMPO_PUERTA_SALIDA`). -/
def fijarTiempoPuertaSalida (k : Constantes) (v : ℚ) : Constantes :=
  { k with tiempoPuertaSalida := v }

/-! ## Python float modulo (for non-negative operands) -/

/-- Python's `x % y`: for the simulation clock (`env.now % 1440`) both
operands are non-negative, where `x % y = x - y*floor(x/y)`. -/
def pymod (x y : ℚ) : ℚ := x - y * (⌊x / y⌋ : ℤ)

/-! ## Meal-break guard (source lines 218-227 and 288-296)

Both truck processes, right after acquiring a chute, compute
`current_time = env.now % 1440` and, if it falls in one of four windows,
yield a timeout up to the window's right edge.  The two code sites are
textually identical; each gets its own embedding. -/

/-- Meal-break suspension of the ordinary truck (source lines 219-227),
with `current_time = env.now % 1440` written out at each branch: the
returned value is the timeout duration (0 when no window applies, in which
case the source performs no timeout at all). -/
def pausaColacionCamion (ahora : ℚ) : ℚ :=
  if 780 ≤ pymod ahora 1440 ∧ pymod ahora 1440 < 840 then
    840 - pymod ahora 1440
  else if 420 ≤ pymod ahora 1440 ∧ pymod ahora 1440 < 480 then
    480 - pymod ahora 1440
  else if 900 ≤ pymod ahora 1440 ∧ pymod ahora 1440 < 960 then
    960 - pymod ahora 1440
  else if 1380 ≤ pymod ahora 1440 ∧ pymod ahora 1440 < 1440 then
    1440 - pymod ahora 1440
  else 0

/-- Meal-break suspension of the dedicated truck (source lines 288-296). -/
def pausaColacionCamionDedicado (ahora : ℚ) : ℚ :=
  if 780 ≤ pymod ahora 1440 ∧ pymod ahora 1440 < 840 then
    840 - pymod ahora 1440
  else if 420 ≤ pymod ahora 1440 ∧ pymod ahora 1440 < 480 then
    480 - pymod ahora 1440
  else if 900 ≤ pymod ahora 1440 ∧ pymod ahora 1440 < 960 then
    960 - pymod ahora 1440
  else if 1380 ≤ pymod ahora 1440 ∧ pymod ahora 1440 < 1440 then
    1440 - pymod ahora 1440
  else 0

/-! ## Historical ships table and arrival-rate pipeline (source lines 54-86)

One row of `naves_epic.xlsx`, with the columns the pipeline reads.  The two
timestamp columns are represented as seconds (the source subtracts them and
calls `.dt.total_seconds()`). -/

structure FilaNave where
  tiempo_de_espera : ℚ
  tiempo_descarga : ℚ
  tiempo_entre_arribos : ℚ
  total_detenciones : ℚ
  total_falta_equipos : ℚ
  inicio_descarga : ℚ
  primera_espia : ℚ
  tonelaje : ℚ
deriving DecidableEq

/-- The three row filters applied to the ships table, in source order
(lines 55-57): `tiempo_descarga < 140`, then `tiempo_descarga > 30`, then
`tiempo_entre_arribos < 450`. -/
def filtroNaves (l : List FilaNave) : List FilaNave :=
  ((l.filter (fun r => r.tiempo_descarga < 140)).filter
      (fun r => 30 < r.tiempo_descarga)).filter
    (fun r => r.tiempo_entre_arribos < 450)

/-- `buques[-250:]` (source line 66): the last 250 remaining rows. -/
def navesProcesadas (l : List FilaNave) : List FilaNave :=
  (filtroNaves l).drop ((filtroNaves l).length - 250)

/-- `horas_delay` (source lines 60-61): seconds between `primera_espia` and
`inicio_descarga`, divided by 3600. -/
def horasDelay (r : FilaNave) : ℚ :=
  (r.inicio_descarga - r.primera_espia) / 3600

/-- `minutos_delay` (source line 62): `horas_delay * 60`. -/
def minutosDelay (r : FilaNave) : ℚ := horasDelay r * 60

/-- `minutos_entre_arribos` column (source line 81):
`tiempo_entre_arribos * 60` over the retained rows. -/
def minutosEntreArribos (l : List FilaNave) : List ℚ :=
  (navesProcesadas l).map (fun r => r.tiempo_entre_arribos * 60)

/-- Arithmetic mean of a column (`pandas` `.mean()`). -/
def media (xs : List ℚ) : ℚ := xs.sum / (xs.length : ℚ)

/-- `tasa_llegada_buques` (source lines 84-86): the reciprocal of the mean
of `minutos_entre_arribos`, scaled by `TASA_LLEGADA_FACTOR`. -/
def tasa_llegada_buques (l : List FilaNave) : ℚ :=
  (1 / media (minutosEntreArribos l)) * TASA_LLEGADA_FACTOR

/-- The ship inter-arrival rate exactly as the claim words it: the rate
factor 1.08 times the reciprocal of the mean of minutes-between-arrivals
over the rows satisfying `30 < unload < 140 ∧ inter_arrival < 450`,
restricted to the last 250 such rows. -/
def filtroSegunClaim (l : List FilaNave) : List FilaNave :=
  l.filter (fun r => 30 < r.tiempo_descarga ∧ r.tiempo_descarga < 140 ∧
    r.tiempo_entre_arribos < 450)

def tasaSegunClaim (l : List FilaNave) : ℚ :=
  (108 / 100) * (1 / media
    (((filtroSegunClaim l).drop ((filtroSegunClaim l).length - 250)).map
      (fun r => 60 * r.tiempo_entre_arribos)))

/-- The exponential-rate parameter the ship generator passes to
`random.expovariate` on every iteration (source line 399). -/
structure GeneradorBuques where
  tasa : ℚ
deriving DecidableEq

/-- The ship generator built from the historical table: its `expovariate`
rate is the module-level `tasa_llegada_buques`. -/
def generadorBuquesDeDatos (l : List FilaNave) : GeneradorBuques :=
  { tasa := tasa_llegada_buques l }

/-! ## Shared scheduler-action vocabulary

Each process body is embedded as the list of scheduler interactions it
performs in one pass, with data-dependent branch outcomes taken as
parameters.  This records, in source order, every suspension point and
every resource/latch operation of the process. -/

inductive Recurso where
  | frenteAtraque
  | puertaEntrada
  | puertaSalida
  | chutes
  | cargarEnBodega
  | descargarEnBodega
deriving DecidableEq

inductive Evento where
  | iniciarLlegadaCamiones
  | inicioDescarga
  | finDescarga
  | faltaCamiones
  | bodegaRecargada
deriving DecidableEq

inductive Contenedor where
  | granoMuelle
  | granoBodega
deriving DecidableEq

inductive Accion where
  | solicitar (r : Recurso)
  | liberar (r : Recurso)
  | espera (dt : ℚ)
  | esperarEvento (e : Evento)
  | poner (c : Contenedor) (x : ℚ)
  | sacar (c : Contenedor) (x : ℚ)
  | disparar (e : Evento)
deriving DecidableEq

/-- The duration `Buque.proceso_buque` passes to `env.timeout` for the
pre-unload delay (source line 179): the `choice` sample from the
`minutos_delay` column is used unchanged — there is no clamping. -/
def duracionDelayBuque (muestra : ℚ) : ℚ := muestra

/-- `Buque.proceso_buque` (source lines 156-192) as its action sequence:
request the berth, wait 440, fire trucks-may-arrive, wait 462-440, wait the
sampled pre-unload delay, dump the tonnage into the dock container, fire
unload-started, await unload-finished, release the berth. -/
def procesoBuqueAcciones (k : Constantes) (delayMuestra tonelaje : ℚ) :
    List Accion :=
  [.solicitar .frenteAtraque,
   .espera k.tiempoLlegadaCamiones,
   .disparar .iniciarLlegadaCamiones,
   .espera (k.tiempoAtraque - k.tiempoLlegadaCamiones),
   .espera (duracionDelayBuque delayMuestra),
   .poner .granoMuelle tonelaje,
   .disparar .inicioDescarga,
   .esperarEvento .finDescarga,
   .liberar .frenteAtraque]

/-- Meal-break actions of the ordinary truck: a single timeout when a
window applies (its duration is then nonzero), nothing otherwise. -/
def accionesColacionCamion (ahora : ℚ) : List Accion :=
  if pausaColacionCamion ahora = 0 then [] else
    [.espera (pausaColacionCamion ahora)]

/-- Meal-break actions of the dedicated truck. -/
def accionesColacionCamionDedicado (ahora : ℚ) : List Accion :=
  if pausaColacionCamionDedicado ahora = 0 then [] else
    [.espera (pausaColacionCamionDedicado ahora)]

/-- `Camion.proceso_camion` (source lines 204-249) as its action sequence.
`ahora` is the clock at the meal-break check, `esperaInicio` the outcome of
`grano_muelle.level == 0 or current_buque is None`, `carga` the computed
`min(capacidad, level)` and `disparaFin` the outcome of the dock-emptied
test.  The exit gate is requested and released with nothing in between. -/
def procesoCamionAcciones (k : Constantes) (ahora : ℚ) (esperaInicio : Bool)
    (carga : ℚ) (disparaFin : Bool) : List Accion :=
  [.solicitar .puertaEntrada,
   .espera (k.tiempoPuertaEntrada / 2),
   .solicitar .chutes,
   .espera (k.tiempoPuertaEntrada / 2),
   .liberar .puertaEntrada]
  ++ accionesColacionCamion ahora
  ++ (if esperaInicio then [.esperarEvento .inicioDescarga] else [])
  ++ [.sacar .granoMuelle carga]
  ++ (if disparaFin then [.disparar .finDescarga] else [])
  ++ [.espera k.tiempoCargarEnChute,
      .liberar .chutes,
      .solicitar .puertaSalida,
      .liberar .puertaSalida]

/-- One round of `CamionDedicado.proceso_camion_dedicado` (source lines
263-346): one pass of the no-trucks wait loop, entry, chute, meal break,
draw from the dock, trip to the warehouse, unload there (conditionally
firing the replenished latch), and exit from the warehouse. -/
def procesoCamionDedicadoAcciones (k : Constantes) (ahora : ℚ)
    (esperaInicio : Bool) (carga : ℚ) (disparaFin disparaRecarga : Bool) :
    List Accion :=
  [.esperarEvento .faltaCamiones,
   .espera 2,
   .solicitar .puertaEntrada,
   .espera k.tiempoPuertaEntrada,
   .solicitar .chutes,
   .liberar .puertaEntrada]
  ++ accionesColacionCamionDedicado ahora
  ++ (if esperaInicio then [.esperarEvento .inicioDescarga] else [])
  ++ [.sacar .granoMuelle carga]
  ++ (if disparaFin then [.disparar .finDescarga] else [])
  ++ [.espera k.tiempoCargarEnChute,
      .liberar .chutes,
      .espera k.tiempoABodega,
      .solicitar .descargarEnBodega,
      .espera k.tiempoDescargarEnBodega,
      .poner .granoBodega carga]
  ++ (if disparaRecarga then [.disparar .bodegaRecargada] else [])
  ++ [.liberar .descargarEnBodega,
      .espera k.tiempoSalidaDeBodega]

/-- `CamionBodega.proceso_camion_bodega` (source lines 357-391) as its
action sequence; the exit delay happens inside the load-server scope. -/
def procesoCamionBodegaAcciones (k : Constantes) (esperaRecarga : Bool)
    (carga : ℚ) : List Accion :=
  [.solicitar .cargarEnBodega]
  ++ (if esperaRecarga then [.esperarEvento .bodegaRecargada] else [])
  ++ [.espera k.tiempoCargarEnBodega,
      .sacar .granoBodega carga,
      .espera k.tiempoSalidaDeBodega,
      .liberar .cargarEnBodega]

/-- One iteration of `generar_buques` (source lines 398-402): a single
exponential inter-arrival timeout (spawning a ship suspends nothing). -/
def iteracionGenerarBuquesAcciones (dt : ℚ) : List Accion :=
  [.espera dt]

/-- `monitor_cola_buques` (source line 460): one daily timeout. -/
def monitorColaBuquesAcciones : List Accion :=
  [.espera (60 * 24)]

/-- One pass of `Puerto.monitor_cola_camiones` (source lines 126-130):
conditionally fire the no-trucks latch, then sleep half a minute. -/
def monitorColaCamionesAcciones (dispara : Bool) : List Accion :=
  (if dispara then [.disparar .faltaCamiones] else []) ++ [.espera (1 / 2)]

/-! ## Truck-generator decisions (source lines 413-452)

Each pass of the inner loop of `generar_camiones_puerto` draws one uniform
`u = random.random()` and only when `u < 1 - p` performs its (sole)
suspension — an exponential timeout — and spawns a truck; otherwise the
loop repeats immediately with no yield.  `generar_camiones_bodega` is
symmetric with guard `u < p`. -/

/-- Guard of the ordinary-truck generator's inner loop (source line 425). -/
def decisionIrAlPuerto (p u : ℚ) : Bool := u < 1 - p

/-- Guard of the warehouse-truck generator's inner loop (source line 447). -/
def decisionIrABodega (p u : ℚ) : Bool := u < p

/-- Spawn/yield decisions of the ordinary-truck generator over a stream of
uniform draws (one per inner-loop pass while a ship is current). -/
def cedePuertoTraza (p : ℚ) (us : List ℚ) : List Bool :=
  us.map (decisionIrAlPuerto p)

/-- Spawn/yield decisions of the warehouse-truck generator over a stream
of uniform draws (one per inner-loop pass while inventory is positive). -/
def cedeBodegaTraza (p : ℚ) (us : List ℚ) : List Bool :=
  us.map (decisionIrABodega p)

/-- Virtual time consumed by one ordinary-generator pass: the exponential
draw `dt` when the guard selects "go to port", nothing otherwise (there is
no other timeout in the loop). -/
def avanceGenPuerto (p u dt : ℚ) : ℚ :=
  if decisionIrAlPuerto p u then dt else 0

/-- Virtual time consumed by one warehouse-generator pass. -/
def avanceGenBodega (p u dt : ℚ) : ℚ :=
  if decisionIrABodega p u then dt else 0

/-- Total virtual time the ordinary-truck generator cedes over paired
streams of uniforms and exponential draws. -/
def tiempoCedidoPuerto (p : ℚ) (us dts : List ℚ) : ℚ :=
  ((us.zip dts).map (fun x => avanceGenPuerto p x.1 x.2)).sum

/-- Total virtual time the warehouse-truck generator cedes. -/
def tiempoCedidoBodega (p : ℚ) (us dts : List ℚ) : ℚ :=
  ((us.zip dts).map (fun x => avanceGenBodega p x.1 x.2)).sum

/-! ## Ship generator bookkeeping (source lines 393-410) -/

/-- State of `generar_buques`: the next ship id, the lost-ship counter
`buques_peridos`, and the ids spawned so far. -/
structure EstadoGenBuques where
  iBuques : ℕ
  buquesPerdidos : ℕ
  botados : List ℕ
deriving DecidableEq

/-- One arrival event of `generar_buques` (source lines 405-410), given the
berth queue length `q` observed after the inter-arrival timeout: spawn a
ship when `q < MAXIMO_RADA`, else count the arrival as lost. -/
def pasoGenBuques (s : EstadoGenBuques) (q : ℕ) : EstadoGenBuques :=
  if q < MAXIMO_RADA then
    { s with iBuques := s.iBuques + 1, botados := s.botados ++ [s.iBuques] }
  else
    { s with buquesPerdidos := s.buquesPerdidos + 1 }

/-- The generator state after a sequence of arrival events with observed
queue lengths `qs`. -/
def corridaGenBuques (qs : List ℕ) : EstadoGenBuques :=
  qs.foldl pasoGenBuques { iBuques := 0, buquesPerdidos := 0, botados := [] }

/-! ## One unload cycle (source lines 179-192, 230-243, 299-309)

The ship puts its tonnage into the empty dock container and waits for the
unload-finished latch; trucks (ordinary or dedicated) each draw
`min(capacity, level)`, credit themselves to the current ship, and the
truck that empties the dock fires the latch.  Only the ship process writes
`current_buque`: it sets it before the put and clears it only after the
latch has fired. -/

structure CamionCiclo where
  dedicado : Bool
  capacidad : ℚ
deriving DecidableEq

structure EstadoCiclo where
  nivel : ℚ
  currentBuque : Option ℕ
  finDisparado : Bool
  cargas : List ℚ
  numCamionesNormales : ℕ
  numCamionesDedicados : ℕ
deriving DecidableEq

/-- Cycle state right after the ship's `grano_muelle.put(tonelaje)` and
`inicio_descarga` firing (source lines 182-186): the dock level equals the
tonnage and `current_buque` points at the ship. -/
def inicioCiclo (b : ℕ) (tonelaje : ℚ) : EstadoCiclo :=
  { nivel := tonelaje
    currentBuque := some b
    finDisparado := false
    cargas := []
    numCamionesNormales := 0
    numCamionesDedicados := 0 }

/-- One truck at the chute (source lines 230-243 / 299-309).  A truck that
finds the dock empty or no current ship waits for the next cycle's
unload-started latch and touches nothing of this cycle; otherwise it draws
`min(capacidad, nivel)`, records its payload, credits the current ship's
ordinary or dedicated counter, and fires the unload-finished latch if it
emptied the dock and the latch has not fired in this cycle. -/
def pasoCamionCiclo (e : EstadoCiclo) (c : CamionCiclo) : EstadoCiclo :=
  if e.nivel = 0 ∨ e.currentBuque = none then e
  else
    let carga := min c.capacidad e.nivel
    { nivel := e.nivel - carga
      currentBuque := e.currentBuque
      finDisparado := if e.nivel - carga = 0 then true else e.finDisparado
      cargas := e.cargas ++ [carga]
      numCamionesNormales :=
        e.numCamionesNormales + (if c.dedicado then 0 else 1)
      numCamionesDedicados :=
        e.numCamionesDedicados + (if c.dedicado then 1 else 0) }

/-- The unload cycle of ship `b` with tonnage `tonelaje`, serviced by the
trucks `cs` in chute order. -/
def cicloDescarga (b : ℕ) (tonelaje : ℚ) (cs : List CamionCiclo) :
    EstadoCiclo :=
  cs.foldl pasoCamionCiclo (inicioCiclo b tonelaje)

/-! ## Berth FIFO and result assembly (source lines 162-192, 500-530) -/

/-- Statistics the simulation keeps per serviced ship (the attributes of
`Buque` read at lines 516-528). -/
structure BuqueInfo where
  id_buque : ℕ
  largo_cola_al_arribar : ℕ
  tonelaje : ℚ
  arribo : ℚ
  tiempo_espera : ℚ
  tiempo_descarga : ℚ
  num_camiones_normales : ℕ
  num_camiones_dedicados : ℕ
deriving DecidableEq

/-- A row of the ships-serviced output table (source lines 516-528). -/
structure FilaBuque where
  buqueID : ℕ
  largoColaAlArribo : ℕ
  tonelajeBuque : ℚ
  arribo : ℚ
  tiempoEsperaDias : ℚ
  tiempoDescargaDias : ℚ
  camionesNormales : ℕ
  camionesDedicados : ℕ
  tiempoEsperaHoras : ℚ
  tiempoDescargaHoras : ℚ
deriving DecidableEq

/-- The row built for one serviced ship (source lines 516-528): wait and
unload durations echoed in days and in hours, with the truck counters. -/
def filaDeBuque (b : BuqueInfo) : FilaBuque :=
  { buqueID := b.id_buque
    largoColaAlArribo := b.largo_cola_al_arribar
    tonelajeBuque := b.tonelaje
    arribo := b.arribo
    tiempoEsperaDias := b.tiempo_espera / (60 * 24)
    tiempoDescargaDias := b.tiempo_descarga / (60 * 24)
    camionesNormales := b.num_camiones_normales
    camionesDedicados := b.num_camiones_dedicados
    tiempoEsperaHoras := b.tiempo_espera / 60
    tiempoDescargaHoras := b.tiempo_descarga / 60 }

/-- The ships-serviced table (source lines 514-530): the serviced list with
its first `buques_inicio_cola` entries dropped, each remaining ship mapped
to its output row. -/
def datosBuques (atendidos : List BuqueInfo) (buquesInicioCola : ℕ) :
    List FilaBuque :=
  (atendidos.drop buquesInicioCola).map filaDeBuque

/-- Events at the capacity-1 FIFO berth: a ship joins the queue, or the
berth finishes one ship (head of the queue) and appends it to the serviced
list.  This models `simpy.Resource(env, capacity=1)` handing the berth to
requesters in arrival order, with `buques_atendidos.append` happening
before the release (source lines 162-192). -/
inductive EventoMuelle (α : Type) where
  | llega (b : α)
  | atiende
deriving DecidableEq

structure EstadoMuelle (α : Type) where
  cola : List α
  atendidos : List α
deriving DecidableEq

def pasoMuelle {α : Type} (s : EstadoMuelle α) (e : EventoMuelle α) :
    EstadoMuelle α :=
  match e with
  | .llega b => { s with cola := s.cola ++ [b] }
  | .atiende =>
    match s.cola with
    | [] => s
    | b :: resto => { cola := resto, atendidos := s.atendidos ++ [b] }

def corridaMuelle {α : Type} (evts : List (EventoMuelle α)) :
    EstadoMuelle α :=
  evts.foldl pasoMuelle { cola := [], atendidos := [] }

/-- The berth-request arrivals of an event sequence, in order. -/
def llegadasDe {α : Type} (evts : List (EventoMuelle α)) : List α :=
  evts.filterMap (fun e =>
    match e with
    | .llega b => some b
    | .atiende => none)

/-! ## Driver (source lines 472-538) -/

/-- The run parameters of `simulacion`. -/
structure ParametrosRun where
  anios : ℕ
  camionesDedicados : ℕ
  grano : ℚ
  cap : ℚ
  prob : ℚ
  buquesInicioCola : ℕ
deriving DecidableEq

/-- A process or entity the driver starts, with the parameters it is
handed. -/
inductive Proceso where
  | generarBuques
  | generarCamionesPuerto (prob : ℚ)
  | monitorColaBuques
  | procesoBuque (id : ℕ)
  | crearBodega (granoInit : ℚ)
  | generarCamionesBodega (prob : ℚ)
  | monitorColaCamiones
  | camionDedicado (id : ℕ) (cap : ℚ)
deriving DecidableEq

/-- What `simulacion` starts, in source order (lines 493-510): the ship
generator, the ordinary-truck generator (with `prob`), the daily monitor
and the pre-seeded queued ships — and, only when `camiones_dedicados > 0`,
the warehouse (with `grano`), the warehouse-truck generator, the no-trucks
monitor and the dedicated trucks (with `cap`). -/
def procesosSimulacion (camionesDedicados : ℕ) (grano cap prob : ℚ)
    (buquesInicioCola : ℕ) : List Proceso :=
  [.generarBuques, .generarCamionesPuerto prob, .monitorColaBuques]
  ++ (List.range buquesInicioCola).map .procesoBuque
  ++ (if 0 < camionesDedicados then
        [.crearBodega grano, .generarCamionesBodega prob,
         .monitorColaCamiones]
        ++ (List.range camionesDedicados).map (fun i => .camionDedicado i cap)
      else [])

/-! ## Seeding and determinism (source lines 489-512)

`simulacion` reseeds both `random` and `np.random` from the given seed
before building the environment; from then on every random draw comes from
those generators, so the whole run is a function of the seed, the input
tables and the parameters.  The generator state is modelled as a natural
number advanced by a linear congruential step; `random.seed(s)` makes the
state a function of `s` alone, discarding whatever state the generator had
before the call. -/

/-- One step of the modelled pseudo-random generator. -/
def lcg (x : ℕ) : ℕ := (1103515245 * x + 12345) % 2 ^ 31

/-- The first `n` uniform draws from generator state `estado`. -/
def corrienteUniforme (estado : ℕ) (n : ℕ) : List ℚ :=
  (List.range n).map (fun i => ((lcg^[i + 1] estado : ℕ) : ℚ) / 2 ^ 31)

/-- `random.seed(seed)` / `np.random.seed(seed)` guarded by
`if seed is not None` (source lines 489-491): a supplied seed replaces the
generator state by a function of the seed; `None` keeps the prior state. -/
def inicializarRng : Option ℕ → ℕ → ℕ
  | some s, _ => s
  | none, previo => previo

/-- A daily roadstead snapshot row (source lines 464-469). -/
structure FilaRada where
  dia : ℚ
  largoColaRada : ℕ
  totalBuquesAtendidos : ℕ
  totalBuquesPerdidos : ℕ
deriving DecidableEq

/-- The output tables of `simulacion`: ships serviced, daily roadstead
snapshots, and warehouse events only when the warehouse exists. -/
structure SalidaSimulacion where
  dfBuques : List FilaBuque
  dfCola : List FilaRada
  dfBodega : Option (List (ℚ × ℚ))
deriving DecidableEq

/-- `simulacion` with the event loop abstracted: seed the generator from
`seed` and the prior state (source lines 489-491), then hand the seeded
state, the parameters and the input table to the event loop `bucle`, which
produces the output tables.  Every random draw of the run comes from the
seeded generator, so the loop sees nothing beyond these three arguments. -/
def simulacionModelo (bucle : ℕ → ParametrosRun → List FilaNave → SalidaSimulacion)
    (seed : Option ℕ) (estadoPrevio : ℕ) (pr : ParametrosRun)
    (naves : List FilaNave) : SalidaSimulacion :=
  bucle (inicializarRng seed estadoPrevio) pr naves

/-! ## Helper lemmas -/

lemma genBuquesPerdidosFold (qs : List ℕ) :
    ∀ s : EstadoGenBuques,
      (qs.foldl pasoGenBuques s).buquesPerdidos
        = s.buquesPerdidos + qs.countP (fun q => decide (MAXIMO_RADA ≤ q)) := by
  induction qs with
  | nil => intro s; simp
  | cons q t ih =>
    intro s
    rw [List.foldl_cons, ih, List.countP_cons]
    unfold pasoGenBuques
    by_cases h : q < MAXIMO_RADA
    · simp [h, Nat.not_le.mpr h]
    · simp only [if_neg h]
      simp [Nat.le_of_not_lt h]
      omega

lemma genBuquesBotadosFold (qs : List ℕ) :
    ∀ s : EstadoGenBuques,
      (qs.foldl pasoGenBuques s).botados.length
        = s.botados.length + qs.countP (fun q => decide (q < MAXIMO_RADA)) := by
  induction qs with
  | nil => intro s; simp
  | cons q t ih =>
    intro s
    rw [List.foldl_cons, ih, List.countP_cons]
    unfold pasoGenBuques
    by_cases h : q < MAXIMO_RADA
    · simp [h]
      omega
    · simp [h]

/-! ## C4: ship arrival generator and lost ships -/

/-- Claim C4: after each inter-arrival timeout the generator spawns a ship
exactly when the observed berth queue length is strictly below
`MAXIMO_RADA`, and otherwise adds exactly one to `buques_peridos`; hence
after any sequence of arrival events the lost-ship counter equals the
number of arrivals that observed a queue of length at least `MAXIMO_RADA`,
and the number of spawned ships equals the number that observed a shorter
queue. -/
theorem generarBuquesCuentaPerdidos (qs : List ℕ) :
    (corridaGenBuques qs).buquesPerdidos
        = qs.countP (fun q => decide (MAXIMO_RADA ≤ q)) ∧
    (corridaGenBuques qs).botados.length
        = qs.countP (fun q => decide (q < MAXIMO_RADA)) ∧
    ∀ (s : EstadoGenBuques) (q : ℕ),
      (q < MAXIMO_RADA →
        pasoGenBuques s q
          = { s with iBuques := s.iBuques + 1,
                     botados := s.botados ++ [s.iBuques] }) ∧
      (MAXIMO_RADA ≤ q →
        pasoGenBuques s q
          = { s with buquesPerdidos := s.buquesPerdidos + 1 }) := by
  refine ⟨?_, ?_, ?_⟩
  · simpa using genBuquesPerdidosFold qs
      { iBuques := 0, buquesPerdidos := 0, botados := [] }
  · simpa using genBuquesBotadosFold qs
      { iBuques := 0, buquesPerdidos := 0, botados := [] }
  · intro s q
    constructor
    · intro h
      simp [pasoGenBuques, h]
    · intro h
      simp [pasoGenBuques, Nat.not_lt.mpr h]

/-- Witness for C4 on a concrete arrival sequence. -/
theorem generarBuquesCuentaPerdidosTestigo :
    (corridaGenBuques [0, 8, 9, 7]).buquesPerdidos
      = [0, 8, 9, 7].countP (fun q => decide (MAXIMO_RADA ≤ q)) :=
  (generarBuquesCuentaPerdidos [0, 8, 9, 7]).1

/-! ## C9: busy loops of the truck generators at extreme `p` -/

lemma decisionPuertoUnoFalsa (u : ℚ) (hu : 0 ≤ u) :
    decisionIrAlPuerto 1 u = false := by
  simp only [decisionIrAlPuerto, decide_eq_false_iff_not, not_lt]
  linarith

lemma decisionBodegaCeroFalsa (u : ℚ) (hu : 0 ≤ u) :
    decisionIrABodega 0 u = false := by
  simp only [decisionIrABodega, decide_eq_false_iff_not, not_lt]
  exact hu

/-- Claim C9: with `p = 1` the guard `random() < 1 - p` of the
ordinary-truck generator's inner loop is false for every uniform draw, so
no pass of the loop reaches its timeout (the loop's only suspension) and
no virtual time is ceded; symmetrically with `p = 0` for the
warehouse-truck generator's guard `random() < p`. -/
theorem generadoresBucleSinCeder (us : List ℚ) (h : ∀ u ∈ us, 0 ≤ u) :
    cedePuertoTraza 1 us = List.replicate us.length false ∧
    cedeBodegaTraza 0 us = List.replicate us.length false ∧
    (∀ dts : List ℚ, tiempoCedidoPuerto 1 us dts = 0) ∧
    (∀ dts : List ℚ, tiempoCedidoBodega 0 us dts = 0) := by
  refine ⟨?_, ?_, ?_, ?_⟩
  · rw [List.eq_replicate_iff]
    refine ⟨by simp [cedePuertoTraza], ?_⟩
    intro b hb
    obtain ⟨u, hu, rfl⟩ := List.mem_map.1 hb
    exact decisionPuertoUnoFalsa u (h u hu)
  · rw [List.eq_replicate_iff]
    refine ⟨by simp [cedeBodegaTraza], ?_⟩
    intro b hb
    obtain ⟨u, hu, rfl⟩ := List.mem_map.1 hb
    exact decisionBodegaCeroFalsa u (h u hu)
  · intro dts
    apply List.sum_eq_zero
    intro x hx
    obtain ⟨y, hy, rfl⟩ := List.mem_map.1 hx
    have h0 : 0 ≤ y.1 := h y.1 (List.of_mem_zip hy).1
    simp [avanceGenPuerto, decisionPuertoUnoFalsa y.1 h0]
  · intro dts
    apply List.sum_eq_zero
    intro x hx
    obtain ⟨y, hy, rfl⟩ := List.mem_map.1 hx
    have h0 : 0 ≤ y.1 := h y.1 (List.of_mem_zip hy).1
    simp [avanceGenBodega, decisionBodegaCeroFalsa y.1 h0]

/-- Witness for C9 on a concrete stream of uniform draws. -/
theorem generadoresBucleSinCederTestigo :
    cedePuertoTraza 1 [0, 1/2, 9/10] = List.replicate 3 false :=
  (generadoresBucleSinCeder [0, 1/2, 9/10] (by norm_num)).1

/-! ## C1: with no warehouse the run still depends on `p` -/

/-- Counterexample to claim C1: two runs with `camiones_dedicados = 0` that
differ only in `p` (0 versus 1/2), with the same seed and inputs, are not
identical — the driver starts the ordinary-truck generator with `prob` in
every run, and on the uniform draw `u = 1/2` the generator's spawn guard
`u < 1 - p` decides differently under the two values of `p`. -/
theorem sinBodegaDependeDePContra :
    procesosSimulacion 0 0 0 0 7 ≠ procesosSimulacion 0 0 0 (1/2) 7 ∧
    cedePuertoTraza 0 [1/2] ≠ cedePuertoTraza (1/2) [1/2] := by
  have h1 : decisionIrAlPuerto 0 (1/2) = true := by
    simp only [decisionIrAlPuerto, decide_eq_true_eq]
    norm_num
  have h2 : decisionIrAlPuerto (1/2) (1/2) = false := by
    simp only [decisionIrAlPuerto, decide_eq_false_iff_not, not_lt]
    norm_num
  constructor
  · intro h
    simp only [procesosSimulacion] at h
    simp at h
  · intro h
    simp only [cedePuertoTraza, List.map_cons, List.map_nil, h1, h2] at h
    simp at h

/-- Amended claim C1: with `camiones_dedicados = 0` the run is independent
of `grano` (initial warehouse inventory) and `cap` (dedicated-truck
capacity), which are read only inside the warehouse branch of the driver —
but not of `p`, which parameterises the always-started ordinary-truck
generator. -/
theorem sinBodegaIgnoraGranoYCap :
    ∀ (grano grano' cap cap' prob : ℚ) (buquesInicioCola : ℕ),
      procesosSimulacion 0 grano cap prob buquesInicioCola
        = procesosSimulacion 0 grano' cap' prob buquesInicioCola := by
  intro grano grano' cap cap' prob bic
  simp [procesosSimulacion]

/-! ## C5: determinism under a fixed seed -/

/-- Claim C5: with a supplied seed the run's outputs do not depend on the
state the random generators had before the call — `simulacion` reseeds
them from the seed (source lines 489-491), and every random draw of the
event loop comes from the reseeded generators, so two executions with the
same seed, inputs and parameters produce identical output tables. -/
theorem simulacionDeterminista
    (bucle : ℕ → ParametrosRun → List FilaNave → SalidaSimulacion)
    (s : ℕ) (pr : ParametrosRun) (naves : List FilaNave)
    (estado estado' : ℕ) :
    simulacionModelo bucle (some s) estado pr naves
      = simulacionModelo bucle (some s) estado' pr naves := rfl

/-! ## C3: the pre-unload delay sample is not clamped -/

/-- Counterexample to claim C3: the ship process passes the sampled
`minutos_delay` value to `env.timeout` unchanged (source line 179), so a
negative sample is not replaced by 0: at sample −60 the duration used is
−60, and a historical row whose `inicio_descarga` precedes its
`primera_espia` by one hour yields exactly that sample. -/
theorem delayNegativoSinRecorteContra :
    duracionDelayBuque (-60) ≠ 0 ∧
    duracionDelayBuque (-60) ≠ max 0 (-60) ∧
    minutosDelay
      { tiempo_de_espera := 0, tiempo_descarga := 0,
        tiempo_entre_arribos := 0, total_detenciones := 0,
        total_falta_equipos := 0, inicio_descarga := 0,
        primera_espia := 3600, tonelaje := 0 } = -60 ∧
    Accion.espera (-60) ∈ procesoBuqueAcciones constantesDefecto (-60) 30000 := by
  refine ⟨by norm_num [duracionDelayBuque], by norm_num [duracionDelayBuque],
    by norm_num [minutosDelay, horasDelay],
    by simp [procesoBuqueAcciones, duracionDelayBuque]⟩

/-- Amended claim C3: no clamping is performed — the pre-unload delay drawn
from the `minutos_delay` column is passed to the scheduler's timeout
unchanged, so a negative sample reaches `env.timeout` as a negative
duration. -/
theorem delayBuqueUsaMuestraCruda (s : ℚ) (h : s < 0) :
    duracionDelayBuque s = s ∧ duracionDelayBuque s < 0 ∧
    Accion.espera s ∈ procesoBuqueAcciones constantesDefecto s 30000 := by
  refine ⟨rfl, h, ?_⟩
  simp [procesoBuqueAcciones, duracionDelayBuque]

/-- Witness for the amended C3 at the concrete sample −90. -/
theorem delayBuqueUsaMuestraCrudaTestigo :
    (-90 : ℚ) < 0 ∧ duracionDelayBuque (-90) = -90 :=
  ⟨by norm_num, (delayBuqueUsaMuestraCruda (-90) (by norm_num)).1⟩

/-! ## C10: the exit-gate service time is dead -/

/-- Claim C10: no process embedding reads `tiempoPuertaSalida` — changing
that constant leaves every process's action sequence unchanged — and the
ordinary truck's exit consists of requesting the exit gate and releasing
it immediately, as the final two actions with nothing in between. -/
theorem puertaSalidaSinUso :
    ∀ (k : Constantes) (v ahora muestra tonelaje carga : ℚ)
      (esperaInicio disparaFin disparaRecarga esperaRecarga : Bool),
      procesoBuqueAcciones (fijarTiempoPuertaSalida k v) muestra tonelaje
          = procesoBuqueAcciones k muestra tonelaje ∧
      procesoCamionAcciones (fijarTiempoPuertaSalida k v) ahora
            esperaInicio carga disparaFin
          = procesoCamionAcciones k ahora esperaInicio carga disparaFin ∧
      procesoCamionDedicadoAcciones (fijarTiempoPuertaSalida k v) ahora
            esperaInicio carga disparaFin disparaRecarga
          = procesoCamionDedicadoAcciones k ahora esperaInicio carga
              disparaFin disparaRecarga ∧
      procesoCamionBodegaAcciones (fijarTiempoPuertaSalida k v)
            esperaRecarga carga
          = procesoCamionBodegaAcciones k esperaRecarga carga ∧
      ∃ resto : List Accion,
        procesoCamionAcciones k ahora esperaInicio carga disparaFin
          = resto ++ [.solicitar .puertaSalida, .liberar .puertaSalida] := by
  intro k v ahora muestra tonelaje carga esperaInicio disparaFin
    disparaRecarga esperaRecarga
  refine ⟨rfl, rfl, rfl, rfl, ?_⟩
  refine ⟨[Accion.solicitar .puertaEntrada,
    .espera (k.tiempoPuertaEntrada / 2),
    .solicitar .chutes,
    .espera (k.tiempoPuertaEntrada / 2),
    .liberar .puertaEntrada]
    ++ accionesColacionCamion ahora
    ++ (if esperaInicio then [.esperarEvento .inicioDescarga] else [])
    ++ [.sacar .granoMuelle carga]
    ++ (if disparaFin then [.disparar .finDescarga] else [])
    ++ [.espera k.tiempoCargarEnChute, .liberar .chutes], ?_⟩
  simp [procesoCamionAcciones, List.append_assoc]

/-! ## C7: the ship inter-arrival rate -/

/-- Claim C7: the rate handed to `random.expovariate` by the ship
generator equals 1.08 times the reciprocal of the mean of
minutes-between-arrivals over the ships table filtered to
`30 < unload < 140` and `inter-arrival < 450` hours and restricted to the
last 250 remaining rows. -/
theorem tasaLlegadaBuquesSegunClaim (l : List FilaNave) :
    tasa_llegada_buques l = tasaSegunClaim l ∧
    (generadorBuquesDeDatos l).tasa = tasaSegunClaim l := by
  have hf : filtroNaves l = filtroSegunClaim l := by
    unfold filtroNaves filtroSegunClaim
    rw [List.filter_filter, List.filter_filter]
    apply List.filter_congr
    intro r _
    by_cases h1 : 30 < r.tiempo_descarga <;>
      by_cases h2 : r.tiempo_descarga < 140 <;>
        by_cases h3 : r.tiempo_entre_arribos < 450 <;>
          simp [h1, h2, h3]
  have hfac : TASA_LLEGADA_FACTOR = 108 / 100 := by
    norm_num [TASA_LLEGADA_FACTOR]
  have hm : ∀ L : List FilaNave,
      L.map (fun r => r.tiempo_entre_arribos * 60)
        = L.map (fun r => 60 * r.tiempo_entre_arribos) :=
    fun L => List.map_congr_left (fun r _ => mul_comm _ _)
  have hmain : tasa_llegada_buques l = tasaSegunClaim l := by
    unfold tasa_llegada_buques tasaSegunClaim minutosEntreArribos navesProcesadas
    rw [hf, hfac, hm, mul_comm]
  exact ⟨hmain, hmain⟩

/-! ## C6: meal-break windows -/

/-- Claim C6: in both truck processes, writing `t = now mod 1440`, a truck
whose `t` lies in [420,480), [780,840), [900,960) or [1380,1440) suspends
for exactly the distance to the window's right edge — resuming exactly at
that edge — and a truck outside all four windows incurs no meal-break
delay. -/
theorem pausaColacionVentanas (ahora : ℚ) :
    (420 ≤ pymod ahora 1440 ∧ pymod ahora 1440 < 480 →
      pausaColacionCamion ahora = 480 - pymod ahora 1440 ∧
      pausaColacionCamionDedicado ahora = 480 - pymod ahora 1440 ∧
      ahora + pausaColacionCamion ahora = 1440 * (⌊ahora / 1440⌋ : ℤ) + 480) ∧
    (780 ≤ pymod ahora 1440 ∧ pymod ahora 1440 < 840 →
      pausaColacionCamion ahora = 840 - pymod ahora 1440 ∧
      pausaColacionCamionDedicado ahora = 840 - pymod ahora 1440 ∧
      ahora + pausaColacionCamion ahora = 1440 * (⌊ahora / 1440⌋ : ℤ) + 840) ∧
    (900 ≤ pymod ahora 1440 ∧ pymod ahora 1440 < 960 →
      pausaColacionCamion ahora = 960 - pymod ahora 1440 ∧
      pausaColacionCamionDedicado ahora = 960 - pymod ahora 1440 ∧
      ahora + pausaColacionCamion ahora = 1440 * (⌊ahora / 1440⌋ : ℤ) + 960) ∧
    (1380 ≤ pymod ahora 1440 ∧ pymod ahora 1440 < 1440 →
      pausaColacionCamion ahora = 1440 - pymod ahora 1440 ∧
      pausaColacionCamionDedicado ahora = 1440 - pymod ahora 1440 ∧
      ahora + pausaColacionCamion ahora = 1440 * (⌊ahora / 1440⌋ : ℤ) + 1440) ∧
    (¬(420 ≤ pymod ahora 1440 ∧ pymod ahora 1440 < 480) ∧
     ¬(780 ≤ pymod ahora 1440 ∧ pymod ahora 1440 < 840) ∧
     ¬(900 ≤ pymod ahora 1440 ∧ pymod ahora 1440 < 960) ∧
     ¬(1380 ≤ pymod ahora 1440 ∧ pymod ahora 1440 < 1440) →
      pausaColacionCamion ahora = 0 ∧
      pausaColacionCamionDedicado ahora = 0) := by
  have hpy : pymod ahora 1440 = ahora - 1440 * (⌊ahora / 1440⌋ : ℤ) := rfl
  unfold pausaColacionCamion pausaColacionCamionDedicado
  refine ⟨?_, ?_, ?_, ?_, ?_⟩
  · rintro ⟨h1, h2⟩
    have hn780 : ¬(780 ≤ pymod ahora 1440 ∧ pymod ahora 1440 < 840) := by
      rintro ⟨a, _⟩
      linarith
    rw [if_neg hn780, if_pos ⟨h1, h2⟩]
    refine ⟨rfl, rfl, ?_⟩
    rw [hpy]
    ring
  · rintro ⟨h1, h2⟩
    rw [if_pos ⟨h1, h2⟩]
    refine ⟨rfl, rfl, ?_⟩
    rw [hpy]
    ring
  · rintro ⟨h1, h2⟩
    have hn780 : ¬(780 ≤ pymod ahora 1440 ∧ pymod ahora 1440 < 840) := by
      rintro ⟨_, b⟩
      linarith
    have hn420 : ¬(420 ≤ pymod ahora 1440 ∧ pymod ahora 1440 < 480) := by
      rintro ⟨_, b⟩
      linarith
    rw [if_neg hn780, if_neg hn420, if_pos ⟨h1, h2⟩]
    refine ⟨rfl, rfl, ?_⟩
    rw [hpy]
    ring
  · rintro ⟨h1, h2⟩
    have hn780 : ¬(780 ≤ pymod ahora 1440 ∧ pymod ahora 1440 < 840) := by
      rintro ⟨_, b⟩
      linarith
    have hn420 : ¬(420 ≤ pymod ahora 1440 ∧ pymod ahora 1440 < 480) := by
      rintro ⟨_, b⟩
      linarith
    have hn900 : ¬(900 ≤ pymod ahora 1440 ∧ pymod ahora 1440 < 960) := by
      rintro ⟨_, b⟩
      linarith
    rw [if_neg hn780, if_neg hn420, if_neg hn900, if_pos ⟨h1, h2⟩]
    refine ⟨rfl, rfl, ?_⟩
    rw [hpy]
    ring
  · rintro ⟨n420, n780, n900, n1380⟩
    rw [if_neg n780, if_neg n420, if_neg n900, if_neg n1380]
    exact ⟨rfl, rfl⟩

/-- Witness for C6: a truck hitting the chute at minute 2220 of the run
(minute 780 of its day) suspends for 60 minutes, resuming at minute-of-day
840. -/
theorem pausaColacionVentanasTestigo :
    pausaColacionCamion 2220 = 840 - pymod 2220 1440 ∧
    pausaColacionCamionDedicado 2220 = 840 - pymod 2220 1440 ∧
    (2220 : ℚ) + pausaColacionCamion 2220
      = 1440 * (⌊(2220 : ℚ) / 1440⌋ : ℤ) + 840 :=
  (pausaColacionVentanas 2220).2.1 (by norm_num [pymod])

/-! ## C2: closing invariant of one unload cycle -/

lemma pasoCamionSuma (e : EstadoCiclo) (c : CamionCiclo) :
    (pasoCamionCiclo e c).cargas.sum + (pasoCamionCiclo e c).nivel
      = e.cargas.sum + e.nivel := by
  unfold pasoCamionCiclo
  by_cases h : e.nivel = 0 ∨ e.currentBuque = none
  · rw [if_pos h]
  · rw [if_neg h]
    simp only [List.sum_append, List.sum_cons, List.sum_nil]
    ring

lemma pasoCamionCurrent (e : EstadoCiclo) (c : CamionCiclo) :
    (pasoCamionCiclo e c).currentBuque = e.currentBuque := by
  unfold pasoCamionCiclo
  by_cases h : e.nivel = 0 ∨ e.currentBuque = none
  · rw [if_pos h]
  · rw [if_neg h]

lemma pasoCamionContadores (e : EstadoCiclo) (c : CamionCiclo) :
    (pasoCamionCiclo e c).numCamionesNormales
        + (pasoCamionCiclo e c).numCamionesDedicados
        + e.cargas.length
      = e.numCamionesNormales + e.numCamionesDedicados
        + (pasoCamionCiclo e c).cargas.length := by
  unfold pasoCamionCiclo
  by_cases h : e.nivel = 0 ∨ e.currentBuque = none
  · rw [if_pos h]
  · rw [if_neg h]
    cases hd : c.dedicado <;> simp [hd] <;> omega

lemma cicloSumaNivelFold (cs : List CamionCiclo) :
    ∀ e : EstadoCiclo,
      (cs.foldl pasoCamionCiclo e).cargas.sum
          + (cs.foldl pasoCamionCiclo e).nivel
        = e.cargas.sum + e.nivel := by
  induction cs with
  | nil => intro e; simp
  | cons c t ih =>
    intro e
    rw [List.foldl_cons, ih, pasoCamionSuma]

lemma cicloCurrentFold (cs : List CamionCiclo) :
    ∀ e : EstadoCiclo,
      (cs.foldl pasoCamionCiclo e).currentBuque = e.currentBuque := by
  induction cs with
  | nil => intro e; rfl
  | cons c t ih =>
    intro e
    rw [List.foldl_cons, ih, pasoCamionCurrent]

lemma cicloContadoresFold (cs : List CamionCiclo) :
    ∀ e : EstadoCiclo,
      (cs.foldl pasoCamionCiclo e).numCamionesNormales
          + (cs.foldl pasoCamionCiclo e).numCamionesDedicados
          + e.cargas.length
        = e.numCamionesNormales + e.numCamionesDedicados
          + (cs.foldl pasoCamionCiclo e).cargas.length := by
  induction cs with
  | nil => intro e; simp
  | cons c t ih =>
    intro e
    rw [List.foldl_cons]
    have h2 := ih (pasoCamionCiclo e c)
    have h3 := pasoCamionContadores e c
    omega

/-- Claim C2: over one unload cycle, if the dock has been drained to level
0 (the unload completed and the unload-finished latch fired), the payloads
credited to the ship — ordinary plus dedicated trucks — sum exactly to the
ship's tonnage; the ordinary and dedicated truck counters together count
exactly the credited payloads; and `current_buque` stays pointing at the
ship at every step of the cycle (only the ship process clears it, after
the latch has fired). -/
theorem cicloDescargaCierre (b : ℕ) (tonelaje : ℚ) (cs : List CamionCiclo)
    (hfin : (cicloDescarga b tonelaje cs).nivel = 0) :
    (cicloDescarga b tonelaje cs).cargas.sum = tonelaje ∧
    (cicloDescarga b tonelaje cs).numCamionesNormales
        + (cicloDescarga b tonelaje cs).numCamionesDedicados
      = (cicloDescarga b tonelaje cs).cargas.length ∧
    ∀ i : ℕ, (cicloDescarga b tonelaje (cs.take i)).currentBuque = some b := by
  refine ⟨?_, ?_, ?_⟩
  · have h := cicloSumaNivelFold cs (inicioCiclo b tonelaje)
    unfold cicloDescarga at hfin ⊢
    rw [hfin] at h
    simpa [inicioCiclo] using h
  · have h := cicloContadoresFold cs (inicioCiclo b tonelaje)
    unfold cicloDescarga
    simpa [inicioCiclo] using h
  · intro i
    have h := cicloCurrentFold (cs.take i) (inicioCiclo b tonelaje)
    unfold cicloDescarga
    simpa [inicioCiclo] using h

/-- The trucks of the witness cycle: two ordinary and one dedicated. -/
def camionesTest : List CamionCiclo :=
  [{ dedicado := false, capacidad := 40 },
   { dedicado := true, capacidad := 35 },
   { dedicado := false, capacidad := 50 }]

/-- Witness for C2: a 100-tonne ship drained by draws of 40, 35 and 25. -/
theorem cicloDescargaCierreTestigo :
    (cicloDescarga 1 100 camionesTest).cargas.sum = 100 := by
  have s1 : pasoCamionCiclo (inicioCiclo 1 100)
      { dedicado := false, capacidad := 40 }
      = { nivel := 60, currentBuque := some 1, finDisparado := false,
          cargas := [40], numCamionesNormales := 1,
          numCamionesDedicados := 0 } := by
    unfold pasoCamionCiclo inicioCiclo
    norm_num [min_def]
    simp
  have s2 : pasoCamionCiclo
      { nivel := 60, currentBuque := some 1, finDisparado := false,
        cargas := [40], numCamionesNormales := 1, numCamionesDedicados := 0 }
      { dedicado := true, capacidad := 35 }
      = { nivel := 25, currentBuque := some 1, finDisparado := false,
          cargas := [40, 35], numCamionesNormales := 1,
          numCamionesDedicados := 1 } := by
    unfold pasoCamionCiclo
    norm_num [min_def]
    simp
  have s3 : pasoCamionCiclo
      { nivel := 25, currentBuque := some 1, finDisparado := false,
        cargas := [40, 35], numCamionesNormales := 1,
        numCamionesDedicados := 1 }
      { dedicado := false, capacidad := 50 }
      = { nivel := 0, currentBuque := some 1, finDisparado := true,
          cargas := [40, 35, 25], numCamionesNormales := 2,
          numCamionesDedicados := 1 } := by
    unfold pasoCamionCiclo
    norm_num [min_def]
    simp
  have hfold : cicloDescarga 1 100 camionesTest
      = { nivel := 0, currentBuque := some 1, finDisparado := true,
          cargas := [40, 35, 25], numCamionesNormales := 2,
          numCamionesDedicados := 1 } := by
    unfold cicloDescarga camionesTest
    rw [List.foldl_cons, s1, List.foldl_cons, s2, List.foldl_cons, s3,
      List.foldl_nil]
  have hfin : (cicloDescarga 1 100 camionesTest).nivel = 0 := by
    rw [hfold]
  have h := (cicloDescargaCierre 1 100 camionesTest hfin).1
  rw [hfold] at h ⊢
  exact h

/-! ## C8: the ships-serviced table drops exactly the pre-seeded queue -/

lemma muelleInvFold {α : Type} (evts : List (EventoMuelle α)) :
    ∀ s : EstadoMuelle α,
      (evts.foldl pasoMuelle s).atendidos ++ (evts.foldl pasoMuelle s).cola
        = s.atendidos ++ s.cola ++ llegadasDe evts := by
  induction evts with
  | nil =>
    intro s
    simp [llegadasDe]
  | cons e t ih =>
    intro s
    rw [List.foldl_cons, ih]
    cases e with
    | llega b =>
      simp [pasoMuelle, llegadasDe, List.filterMap_cons]
    | atiende =>
      cases hc : s.cola with
      | nil => simp [pasoMuelle, hc, llegadasDe, List.filterMap_cons]
      | cons b resto => simp [pasoMuelle, hc, llegadasDe, List.filterMap_cons]

/-- Claim C8: when the berth requests arrive as the pre-seeded queued ships
followed by the generated ships, the ships-serviced table — built by
dropping the first `initial_queued_ships` entries of the serviced list —
contains no pre-seeded ship: it is exactly a prefix of the generated ships
in unload-completion order, each mapped to its output row. -/
theorem datosBuquesSinPreSembrados (evts : List (EventoMuelle BuqueInfo))
    (preSembrados resto : List BuqueInfo)
    (h : llegadasDe evts = preSembrados ++ resto) :
    datosBuques (corridaMuelle evts).atendidos preSembrados.length
      = (resto.take
          ((corridaMuelle evts).atendidos.length - preSembrados.length)).map
          filaDeBuque ∧
    ∀ fila ∈ datosBuques (corridaMuelle evts).atendidos preSembrados.length,
      ∃ b, b ∈ resto ∧ fila = filaDeBuque b := by
  have hA : (corridaMuelle evts).atendidos ++ (corridaMuelle evts).cola
      = preSembrados ++ resto := by
    have hi := muelleInvFold evts { cola := [], atendidos := [] }
    unfold corridaMuelle
    simp only at hi
    rw [hi, h]
    simp
  have hTake : (corridaMuelle evts).atendidos
      = (preSembrados ++ resto).take (corridaMuelle evts).atendidos.length := by
    conv_lhs => rw [← List.take_left (corridaMuelle evts).atendidos
      (corridaMuelle evts).cola]
    rw [hA]
  have hDrop : (corridaMuelle evts).atendidos.drop preSembrados.length
      = resto.take ((corridaMuelle evts).atendidos.length
          - preSembrados.length) := by
    conv_lhs => rw [hTake]
    rw [List.drop_take, List.drop_left]
  constructor
  · unfold datosBuques
    rw [hDrop]
  · intro fila hf
    unfold datosBuques at hf
    rw [hDrop] at hf
    obtain ⟨b, hb, rfl⟩ := List.mem_map.1 hf
    exact ⟨b, List.mem_of_mem_take hb, rfl⟩

/-- Two serviced ships for the C8 witness: `buqueTestA` is the single
pre-seeded queued ship, `buqueTestB` arrives from the generator. -/
def buqueTestA : BuqueInfo :=
  { id_buque := 0, largo_cola_al_arribar := 0, tonelaje := 30000,
    arribo := 0, tiempo_espera := 100, tiempo_descarga := 200,
    num_camiones_normales := 10, num_camiones_dedicados := 0 }

def buqueTestB : BuqueInfo :=
  { id_buque := 1, largo_cola_al_arribar := 1, tonelaje := 25000,
    arribo := 5, tiempo_espera := 50, tiempo_descarga := 150,
    num_camiones_normales := 8, num_camiones_dedicados := 2 }

def eventosMuelleTest : List (EventoMuelle BuqueInfo) :=
  [.llega buqueTestA, .llega buqueTestB, .atiende, .atiende]

/-- Witness for C8: with one pre-seeded ship and one generated ship both
serviced, the output table holds exactly the generated ship's row. -/
theorem datosBuquesSinPreSembradosTestigo :
    datosBuques (corridaMuelle eventosMuelleTest).atendidos 1
      = ([buqueTestB].take
          ((corridaMuelle eventosMuelleTest).atendidos.length - 1)).map
          filaDeBuque := by
  have h : llegadasDe eventosMuelleTest = [buqueTestA] ++ [buqueTestB] := by
    simp [llegadasDe, eventosMuelleTest, List.filterMap_cons]
  exact (datosBuquesSinPreSembrados eventosMuelleTest
    [buqueTestA] [buqueTestB] h).1

end SimPuerto
